import Mathlib

/-!
# Verification of the libp2p-swarm transport/upgrade negotiation layer

Shallow embedding of `src/libp2p-swarm/src/transport.rs`: the `Transport`
and `ConnectionUpgrade` contracts, the `OrTransport` / `OrUpgrade`
combinators, the `Either*` adapter family, `DeniedTransport`, `PlainText`,
and the `UpgradedNode` negotiation driver.

Modelling conventions:
* A Rust future is modelled by its terminal outcome. A transport-level
  dial future or a connection-upgrade future resolves to
  `Except IoError α` (an item, or the structured I/O error).
* A dial run through `UpgradedNode` additionally has a `panic` outcome,
  because the source maps negotiation errors to `panic!` (the
  `// TODO:` placeholders at transport.rs lines 527, 574, 576, 578).
  `Outcome` therefore distinguishes `ok`, `err` (structured) and `panic`
  (process abort).
* A listener (`Stream`) is modelled as the finite list of item outcomes
  it produces; a `panic` aborts the process, so no item follows it.
* A transport is modelled by its state type `τ` together with its
  `dial` / `listen_on` functions
  `τ → Multiaddr → Except (τ × Multiaddr) success`, matching
  `fn dial(self, addr) -> Result<Self::Dial, (Self, Multiaddr)>`:
  the `Except` error arm is the `(returned transport, returned address)`
  pair of the Rust `Err` arm.
* A connection upgrade is modelled by its state type `υ`, a pure
  `protocol_names : υ → List (Bytes × Id)` and an
  `upgrade : υ → conn → Id → Except IoError Out`.
* The external negotiation primitive (`multistream_select`) is out of
  scope for the source file and is taken as an abstract parameter
  `neg : conn → List (Bytes × Id) → Except NegotiationError (Id × conn)`.
-/

/-- Protocol names are byte strings (`bytes::Bytes` in the source). -/
abbrev Bytes := String

/-- Opaque structured network address (`multiaddr::Multiaddr`). -/
structure Multiaddr where
  repr : String
deriving DecidableEq, Repr

/-- Opaque I/O error (`std::io::Error`). -/
structure IoError where
  msg : String
deriving DecidableEq, Repr

/-- Opaque error of the external negotiation primitive. -/
structure NegotiationError where
  msg : String
deriving DecidableEq, Repr

/-- Terminal outcome of a future/stream item produced by `UpgradedNode`:
a value, a structured error surfaced to the caller, or a process abort
(`panic!`). -/
inductive Outcome (α : Type) where
  | ok : α → Outcome α
  | err : IoError → Outcome α
  | panic : Outcome α
deriving DecidableEq, Repr

/-- Embedding of `EitherSocket` (transport.rs lines 224-228): two-variant tagged union
over connections; every I/O operation dispatches to the active variant. -/
inductive EitherSocket (A B : Type) where
  | First : A → EitherSocket A B
  | Second : B → EitherSocket A B
deriving DecidableEq, Repr

/-- Embedding of `EitherTransportFuture` (transport.rs lines 194-198): dispatches the
future poll and wraps the produced item in `EitherSocket`. -/
inductive EitherTransportFuture (A B : Type) where
  | First : A → EitherTransportFuture A B
  | Second : B → EitherTransportFuture A B
deriving DecidableEq, Repr

/-- Terminal outcome of `EitherTransportFuture::poll`
(transport.rs lines 208-219): `try_ready!` propagates the error, a ready
item is wrapped in the matching `EitherSocket` variant. -/
def EitherTransportFuture.poll {a b : Type}
    (f : EitherTransportFuture (Except IoError a) (Except IoError b)) :
    Except IoError (EitherSocket a b) :=
  match f with
  | .First fa => fa.map EitherSocket.First
  | .Second fb => fb.map EitherSocket.Second

/-- Embedding of `EitherStream` (transport.rs lines 163-166). -/
inductive EitherStream (A B : Type) where
  | First : A → EitherStream A B
  | Second : B → EitherStream A B
deriving DecidableEq, Repr

/-- Embedding of `DeniedTransport` (transport.rs lines 101-102): dummy transport that
denies every attempt. -/
inductive DeniedTransport where
  | mk
deriving DecidableEq, Repr

/-- The raw connection type of `DeniedTransport`, `Cursor<Vec<u8>>`:
a byte buffer. -/
abbrev CursorBytes := List Nat

/-- Embedding of `DeniedTransport::dial` (transport.rs lines 115-118): always
`Err((DeniedTransport, addr))`. -/
def DeniedTransport.dial (_t : DeniedTransport) (addr : Multiaddr) :
    Except (DeniedTransport × Multiaddr) (Except IoError CursorBytes) :=
  .error (DeniedTransport.mk, addr)

/-- Embedding of `DeniedTransport::listen_on` (transport.rs lines 110-113): always
`Err((DeniedTransport, addr))`. -/
def DeniedTransport.listen_on (_t : DeniedTransport) (addr : Multiaddr) :
    Except (DeniedTransport × Multiaddr) (List (Except IoError CursorBytes)) :=
  .error (DeniedTransport.mk, addr)

/-- Embedding of `OrTransport::dial` (transport.rs lines 148-158), for sub-transports
given by their state types and dial functions: try the first transport;
on success wrap the dial future as `First`; on failure hand the returned
address to the second; on success wrap as `Second`; if both fail,
reconstruct the pair from the returned sub-transports and return the
address handed back by the second. -/
def OrTransport.dial {α β da db : Type}
    (dialA : α → Multiaddr → Except (α × Multiaddr) da)
    (dialB : β → Multiaddr → Except (β × Multiaddr) db)
    (t : α × β) (addr : Multiaddr) :
    Except ((α × β) × Multiaddr) (EitherTransportFuture da db) :=
  match dialA t.1 addr with
  | .ok connec => .ok (EitherTransportFuture.First connec)
  | .error (first, addr1) =>
    match dialB t.2 addr1 with
    | .ok connec => .ok (EitherTransportFuture.Second connec)
    | .error (second, addr2) => .error ((first, second), addr2)

/-- Embedding of `OrTransport::listen_on` (transport.rs lines 136-146): same fallback
scheme as `OrTransport::dial`, wrapping the listener in `EitherStream`. -/
def OrTransport.listen_on {α β la lb : Type}
    (listenA : α → Multiaddr → Except (α × Multiaddr) la)
    (listenB : β → Multiaddr → Except (β × Multiaddr) lb)
    (t : α × β) (addr : Multiaddr) :
    Except ((α × β) × Multiaddr) (EitherStream la lb) :=
  match listenA t.1 addr with
  | .ok connec => .ok (EitherStream.First connec)
  | .error (first, addr1) =>
    match listenB t.2 addr1 with
    | .ok connec => .ok (EitherStream.Second connec)
    | .error (second, addr2) => .error ((first, second), addr2)

/-- Embedding of `EitherUpgradeIdentifier` (transport.rs lines 363-366): tags an
upgrade identifier with which side of an `OrUpgrade` produced it. -/
inductive EitherUpgradeIdentifier (A B : Type) where
  | First : A → EitherUpgradeIdentifier A B
  | Second : B → EitherUpgradeIdentifier A B
deriving DecidableEq, Repr

/-- Embedding of `EitherConnUpgrFuture` (transport.rs lines 375-378): dispatches the
upgrade future and wraps the produced item in `EitherSocket`. -/
inductive EitherConnUpgrFuture (A B : Type) where
  | First : A → EitherConnUpgrFuture A B
  | Second : B → EitherConnUpgrFuture A B
deriving DecidableEq, Repr

/-- Terminal outcome of `EitherConnUpgrFuture::poll`
(transport.rs lines 388-399): `try_ready!` propagates the error, a ready
item is wrapped in the matching `EitherSocket` variant. -/
def EitherConnUpgrFuture.poll {a b : Type}
    (f : EitherConnUpgrFuture (Except IoError a) (Except IoError b)) :
    Except IoError (EitherSocket a b) :=
  match f with
  | .First fa => fa.map EitherSocket.First
  | .Second fb => fb.map EitherSocket.Second

/-- Embedding of `NamesIterChain` (transport.rs lines 407-410): the pair of the two
sides' protocol-name iterators, each modelled by its list of remaining
items. -/
structure NamesIterChain (aid bid : Type) where
  first : List (Bytes × aid)
  second : List (Bytes × bid)
deriving DecidableEq, Repr

/-- Embedding of `NamesIterChain::next` (transport.rs lines 419-427): pull from the
first iterator while it yields, tagging `First`; then from the second,
tagging `Second`; `None` when both are exhausted. Returns the item and
the advanced iterator state. -/
def NamesIterChain.next {aid bid : Type} (c : NamesIterChain aid bid) :
    Option ((Bytes × EitherUpgradeIdentifier aid bid) × NamesIterChain aid bid) :=
  match c.first with
  | (name, id) :: rest => some ((name, .First id), ⟨rest, c.second⟩)
  | [] =>
    match c.second with
    | (name, id) :: rest => some ((name, .Second id), ⟨[], rest⟩)
    | [] => none

/-- Drive `NamesIterChain.next` for at most `fuel` steps, collecting the
items it yields in order. -/
def NamesIterChain.collect {aid bid : Type} :
    Nat → NamesIterChain aid bid → List (Bytes × EitherUpgradeIdentifier aid bid)
  | 0, _ => []
  | Nat.succ n, c =>
    match c.next with
    | none => []
    | some (item, c2) => item :: NamesIterChain.collect n c2

/-- The full item sequence a `NamesIterChain` yields (its length is
bounded by the two remaining lists, so that much fuel exhausts it). -/
def NamesIterChain.items {aid bid : Type} (c : NamesIterChain aid bid) :
    List (Bytes × EitherUpgradeIdentifier aid bid) :=
  NamesIterChain.collect (c.first.length + c.second.length) c

/-- Embedding of `OrUpgrade::protocol_names` (transport.rs lines 338-343), for sides
given by their state types and (pure) protocol-name functions: chain the
two sides' fresh iterators. -/
def OrUpgrade.protocol_names {σa σb aid bid : Type}
    (pnA : σa → List (Bytes × aid)) (pnB : σb → List (Bytes × bid))
    (u : σa × σb) : NamesIterChain aid bid :=
  ⟨pnA u.1, pnB u.2⟩

/-- Embedding of `OrUpgrade::upgrade` (transport.rs lines 349-358), for sides given by
their upgrade functions (a future is modelled by its terminal outcome):
a `First`-tagged identifier routes the socket and untagged identifier to
the first side, a `Second`-tagged one to the second side, wrapping the
resulting future in the matching `EitherConnUpgrFuture` variant. -/
def OrUpgrade.upgrade {σa σb C aid bid fa fb : Type}
    (upgradeA : σa → C → aid → fa) (upgradeB : σb → C → bid → fb)
    (u : σa × σb) (socket : C) (id : EitherUpgradeIdentifier aid bid) :
    EitherConnUpgrFuture fa fb :=
  match id with
  | .First idA => .First (upgradeA u.1 socket idA)
  | .Second idB => .Second (upgradeB u.2 socket idB)

/-- The protocol name advertised by `PlainText`. -/
def plaintextName : Bytes := "/plaintext/1.0.0"

/-- Embedding of `PlainText::protocol_names` (transport.rs lines 463-465):
`iter::once((Bytes::from("/plaintext/1.0.0"), ()))`. -/
def PlainText.protocol_names : List (Bytes × Unit) :=
  [(plaintextName, ())]

/-- Embedding of `PlainText::upgrade` (transport.rs lines 458-460): `future_ok(i)` —
resolves immediately and successfully to the given connection. -/
def PlainText.upgrade {C : Type} (i : C) (_id : Unit) : Except IoError C :=
  .ok i

/-- Embedding of `UpgradedNode` (transport.rs lines 472-476): a transport paired with
a connection-upgrade set. -/
structure UpgradedNode (τ υ : Type) where
  transports : τ
  upgrade : υ
deriving DecidableEq, Repr

/-- Embedding of `UpgradedNode::or_upgrade` (transport.rs lines 488-495): same
transport, upgrade-set replaced by the `OrUpgrade` pair of the current
one and the other. -/
def UpgradedNode.or_upgrade {τ υ δ : Type} (node : UpgradedNode τ υ)
    (other_upg : δ) : UpgradedNode τ (υ × δ) :=
  ⟨node.transports, (node.upgrade, other_upg)⟩

/-- Terminal outcome of the future built by `UpgradedNode::dial`
(transport.rs lines 521-532) once the underlying dial future has
resolved: a transport I/O error propagates (`and_then`); a negotiation
error is `panic!` (`map_err(|err| panic!(..))`, line 527); after
negotiation the chosen upgrade runs and its error or output is the final
outcome. -/
def UpgradedNode.dialOutcome {υ ρ Id Out : Type}
    (pn : υ → List (Bytes × Id))
    (upgradeFn : υ → ρ → Id → Except IoError Out)
    (neg : ρ → List (Bytes × Id) → Except NegotiationError (Id × ρ))
    (upgrade : υ) (dialed_fut : Except IoError ρ) : Outcome Out :=
  match dialed_fut with
  | .error e => .err e
  | .ok connection =>
    match neg connection (pn upgrade) with
    | .error _ => .panic
    | .ok (upgrade_id, conn) =>
      match upgradeFn upgrade conn upgrade_id with
      | .error e => .err e
      | .ok out => .ok out

/-- Embedding of `UpgradedNode::dial` (transport.rs lines 503-535): delegate to the
held transport's dial; on failure rebuild the `UpgradedNode` from the
returned transport and the unchanged upgrade-set and return it with the
address; on success the dial future is chained with negotiation and
upgrade application (`UpgradedNode.dialOutcome`). -/
def UpgradedNode.dial {τ υ ρ Id Out : Type}
    (dialT : τ → Multiaddr → Except (τ × Multiaddr) (Except IoError ρ))
    (pn : υ → List (Bytes × Id))
    (upgradeFn : υ → ρ → Id → Except IoError Out)
    (neg : ρ → List (Bytes × Id) → Except NegotiationError (Id × ρ))
    (node : UpgradedNode τ υ) (addr : Multiaddr) :
    Except (UpgradedNode τ υ × Multiaddr) (Outcome Out) :=
  match dialT node.transports addr with
  | .error (t2, addr2) => .error (⟨t2, node.upgrade⟩, addr2)
  | .ok dialed_fut =>
    .ok (UpgradedNode.dialOutcome pn upgradeFn neg node.upgrade dialed_fut)

/-- Outcome of one incoming connection on the stream built by
`UpgradedNode::listen_on` (transport.rs lines 564-581): an item-level
transport I/O error is `panic!` (`map_err(|_| panic!())`, line 578); a
negotiation error is `panic!` (lines 574 and 576); after negotiation the
chosen upgrade runs and its error or output is the item outcome. -/
def UpgradedNode.listenItemOutcome {υ ρ Id Out : Type}
    (pn : υ → List (Bytes × Id))
    (upgradeFn : υ → ρ → Id → Except IoError Out)
    (neg : ρ → List (Bytes × Id) → Except NegotiationError (Id × ρ))
    (upgrade : υ) (item : Except IoError ρ) : Outcome Out :=
  match item with
  | .error _ => .panic
  | .ok connection =>
    match neg connection (pn upgrade) with
    | .error _ => .panic
    | .ok (upgrade_id, conn) =>
      match upgradeFn upgrade conn upgrade_id with
      | .error e => .err e
      | .ok out => .ok out

/-- The item sequence of the upgraded listener stream: each incoming item
is negotiated and upgraded independently; a `panic` aborts the process,
so it is the last outcome and no further item is produced. -/
def UpgradedNode.listenStream {υ ρ Id Out : Type}
    (pn : υ → List (Bytes × Id))
    (upgradeFn : υ → ρ → Id → Except IoError Out)
    (neg : ρ → List (Bytes × Id) → Except NegotiationError (Id × ρ))
    (upgrade : υ) : List (Except IoError ρ) → List (Outcome Out)
  | [] => []
  | item :: rest =>
    match UpgradedNode.listenItemOutcome pn upgradeFn neg upgrade item with
    | .panic => [.panic]
    | o => o :: UpgradedNode.listenStream pn upgradeFn neg upgrade rest

/-- Embedding of `UpgradedNode::listen_on` (transport.rs lines 543-584): delegate to
the held transport's `listen_on`; on failure rebuild the `UpgradedNode`
from the returned transport and the unchanged upgrade-set and return it
with the address; on success every incoming connection is independently
negotiated and upgraded (`UpgradedNode.listenStream`). -/
def UpgradedNode.listen_on {τ υ ρ Id Out : Type}
    (listenT : τ → Multiaddr → Except (τ × Multiaddr) (List (Except IoError ρ)))
    (pn : υ → List (Bytes × Id))
    (upgradeFn : υ → ρ → Id → Except IoError Out)
    (neg : ρ → List (Bytes × Id) → Except NegotiationError (Id × ρ))
    (node : UpgradedNode τ υ) (addr : Multiaddr) :
    Except (UpgradedNode τ υ × Multiaddr) (List (Outcome Out)) :=
  match listenT node.transports addr with
  | .error (t2, addr2) => .error (⟨t2, node.upgrade⟩, addr2)
  | .ok listening_stream =>
    .ok (UpgradedNode.listenStream pn upgradeFn neg node.upgrade listening_stream)

/-- The `protocol_names` call of an upgrade as an operation on the
upgrade value, translated from the `&self` receiver of
`trait ConnectionUpgrade` (transport.rs line 308): the call returns the
advertised sequence together with the upgrade value it leaves behind.
For a pure implementation the value is unchanged. -/
def PlainText.protocolNamesCall (u : Unit) : List (Bytes × Unit) × Unit :=
  (PlainText.protocol_names, u)

/-- The `protocol_names` call of `OrUpgrade` (transport.rs lines
338-343) as an operation on the pair of side values, for sides given by
their own (possibly state-returning) calls: each side's call runs once
and the chained items are returned with the pair of left-behind side
values. -/
def OrUpgrade.protocolNamesCall {σa σb aid bid : Type}
    (callA : σa → List (Bytes × aid) × σa)
    (callB : σb → List (Bytes × bid) × σb)
    (u : σa × σb) :
    List (Bytes × EitherUpgradeIdentifier aid bid) × (σa × σb) :=
  (NamesIterChain.items ⟨(callA u.1).1, (callB u.2).1⟩,
    ((callA u.1).2, (callB u.2).2))

theorem NamesIterChain.collect_second {aid bid : Type}
    (l2 : List (Bytes × bid)) :
    NamesIterChain.collect l2.length (⟨[], l2⟩ : NamesIterChain aid bid) =
      l2.map (fun p => (p.1, EitherUpgradeIdentifier.Second p.2)) := by
  induction l2 with
  | nil => rfl
  | cons p rest ih =>
    cases p with
    | mk name id =>
      simpa [NamesIterChain.collect, NamesIterChain.next] using ih

theorem NamesIterChain.items_eq {aid bid : Type}
    (l1 : List (Bytes × aid)) (l2 : List (Bytes × bid)) :
    NamesIterChain.items ⟨l1, l2⟩ =
      l1.map (fun p => (p.1, EitherUpgradeIdentifier.First p.2)) ++
        l2.map (fun p => (p.1, EitherUpgradeIdentifier.Second p.2)) := by
  induction l1 with
  | nil =>
    simpa [NamesIterChain.items] using @NamesIterChain.collect_second aid bid l2
  | cons p rest ih =>
    cases p with
    | mk name id =>
      simpa [NamesIterChain.items, NamesIterChain.collect, NamesIterChain.next,
        List.length, Nat.succ_add] using ih

/-- Claim C5: for all connection upgrades, the advertised sequence of
`OrUpgrade(U1,U2)` (the items its `NamesIterChain` yields) is exactly
U1's advertised (name, id) pairs with each id tagged `First`, followed
by U2's pairs with each id tagged `Second`, preserving each source's
relative order, with nothing dropped, duplicated or reordered. -/
theorem orUpgrade_advertise_chain {σa σb aid bid : Type}
    (pnA : σa → List (Bytes × aid)) (pnB : σb → List (Bytes × bid))
    (u : σa × σb) :
    NamesIterChain.items (OrUpgrade.protocol_names pnA pnB u) =
      (pnA u.1).map (fun p => (p.1, EitherUpgradeIdentifier.First p.2)) ++
        (pnB u.2).map (fun p => (p.1, EitherUpgradeIdentifier.Second p.2)) :=
  NamesIterChain.items_eq (pnA u.1) (pnB u.2)

/-- Claim C3: for all transports A, B and every address x, if `A.dial x`
succeeds with dial future c, then `OrTransport(A,B).dial x` succeeds —
for every B, which is therefore never consulted — and yields c wrapped
as the `First` variant, whose poll outcome is exactly c's outcome
wrapped in `EitherSocket.First`. -/
theorem orTransport_dial_first_succeeds {α β ρa ρb : Type}
    (dialA : α → Multiaddr → Except (α × Multiaddr) (Except IoError ρa))
    (a : α) (x : Multiaddr) (c : Except IoError ρa)
    (h : dialA a x = Except.ok c) :
    ∀ (dialB : β → Multiaddr → Except (β × Multiaddr) (Except IoError ρb))
      (b : β),
      OrTransport.dial dialA dialB (a, b) x =
          Except.ok (EitherTransportFuture.First c) ∧
        EitherTransportFuture.poll
            (EitherTransportFuture.First c :
              EitherTransportFuture (Except IoError ρa) (Except IoError ρb)) =
          c.map EitherSocket.First := by
  intro dialB b
  constructor
  · simp [OrTransport.dial, h]
  · rfl

/-- Witness for `orTransport_dial_first_succeeds`: a transport that
dials successfully to connection 5, composed with `DeniedTransport`. -/
theorem orTransport_dial_first_succeeds_witness :
    OrTransport.dial
        (fun (_ : Unit) (_ : Multiaddr) =>
          Except.ok (Except.ok 5 : Except IoError Nat))
        DeniedTransport.dial ((), DeniedTransport.mk) ⟨"/memory/1"⟩ =
        Except.ok (EitherTransportFuture.First (Except.ok 5)) ∧
      EitherTransportFuture.poll
          (EitherTransportFuture.First (Except.ok 5 : Except IoError Nat) :
            EitherTransportFuture (Except IoError Nat)
              (Except IoError CursorBytes)) =
        Except.ok (EitherSocket.First 5) :=
  orTransport_dial_first_succeeds
    (fun (_ : Unit) (_ : Multiaddr) =>
      Except.ok (Except.ok 5 : Except IoError Nat))
    () ⟨"/memory/1"⟩ (Except.ok 5) rfl DeniedTransport.dial DeniedTransport.mk

/-- Claim C4: for all transports A, B and every address x, if `A.dial x`
fails handing back `(a2, x2)` (the not-supported outcome returning the
address) and B's dial on the returned address `x2` succeeds with c, then
`OrTransport(A,B).dial x` succeeds and yields c wrapped as the `Second`
variant. -/
theorem orTransport_dial_second_fallback {α β da db : Type}
    (dialA : α → Multiaddr → Except (α × Multiaddr) da)
    (dialB : β → Multiaddr → Except (β × Multiaddr) db)
    (a : α) (b : β) (x x2 : Multiaddr) (a2 : α) (c : db)
    (hA : dialA a x = Except.error (a2, x2))
    (hB : dialB b x2 = Except.ok c) :
    OrTransport.dial dialA dialB (a, b) x =
      Except.ok (EitherTransportFuture.Second c) := by
  simp [OrTransport.dial, hA, hB]

/-- Witness for `orTransport_dial_second_fallback`: `DeniedTransport`
(which hands the address back unchanged) composed with a transport that
dials successfully to connection 3. -/
theorem orTransport_dial_second_fallback_witness :
    OrTransport.dial DeniedTransport.dial
        (fun (_ : Unit) (_ : Multiaddr) =>
          Except.ok (Except.ok 3 : Except IoError Nat))
        (DeniedTransport.mk, ()) ⟨"/memory/2"⟩ =
      Except.ok (EitherTransportFuture.Second (Except.ok 3)) :=
  orTransport_dial_second_fallback DeniedTransport.dial
    (fun (_ : Unit) (_ : Multiaddr) =>
      Except.ok (Except.ok 3 : Except IoError Nat))
    DeniedTransport.mk () ⟨"/memory/2"⟩ ⟨"/memory/2"⟩ DeniedTransport.mk
    (Except.ok 3) rfl rfl

/-- Claim C2: for all transports A, B and every address x such that both
fail at x returning the address unchanged (handing back states a2, b2),
`OrTransport(A,B).dial x` fails returning x unchanged together with the
reconstructed pair (a2, b2); and when the handed-back states behave
identically to the originals, the returned combined transport behaves
identically to the original `OrTransport(A,B)` on a subsequent call with
the same x. -/
theorem orTransport_dial_both_fail {α β da db : Type}
    (dialA : α → Multiaddr → Except (α × Multiaddr) da)
    (dialB : β → Multiaddr → Except (β × Multiaddr) db)
    (a : α) (b : β) (x : Multiaddr) (a2 : α) (b2 : β)
    (hA : dialA a x = Except.error (a2, x))
    (hB : dialB b x = Except.error (b2, x))
    (hA2 : dialA a2 = dialA a) (hB2 : dialB b2 = dialB b) :
    OrTransport.dial dialA dialB (a, b) x = Except.error ((a2, b2), x) ∧
      OrTransport.dial dialA dialB (a2, b2) x =
        OrTransport.dial dialA dialB (a, b) x := by
  constructor
  · simp [OrTransport.dial, hA, hB]
  · simp [OrTransport.dial, hA, hB, hA2, hB2]

/-- Witness for `orTransport_dial_both_fail`: two `DeniedTransport`s,
each of which fails returning its state and the address unchanged. -/
theorem orTransport_dial_both_fail_witness :
    OrTransport.dial DeniedTransport.dial DeniedTransport.dial
        (DeniedTransport.mk, DeniedTransport.mk) ⟨"/memory/1"⟩ =
        Except.error ((DeniedTransport.mk, DeniedTransport.mk), ⟨"/memory/1"⟩) ∧
      OrTransport.dial DeniedTransport.dial DeniedTransport.dial
          (DeniedTransport.mk, DeniedTransport.mk) ⟨"/memory/1"⟩ =
        OrTransport.dial DeniedTransport.dial DeniedTransport.dial
          (DeniedTransport.mk, DeniedTransport.mk) ⟨"/memory/1"⟩ :=
  orTransport_dial_both_fail DeniedTransport.dial DeniedTransport.dial
    DeniedTransport.mk DeniedTransport.mk ⟨"/memory/1"⟩
    DeniedTransport.mk DeniedTransport.mk rfl rfl rfl rfl

/-- Claim C6: for all connection upgrades U1, U2, every socket and every
tagged identifier, `OrUpgrade(U1,U2).upgrade` with a `Second`-tagged
identifier invokes exactly U2's upgrade with the untagged identifier —
independently of U1, which is never invoked — and the resulting future
is U2's future wrapped as `Second`, whose poll outcome is U2's upgraded
connection wrapped in `EitherSocket.Second`; symmetrically a
`First`-tagged identifier routes to U1 and never invokes U2. -/
theorem orUpgrade_upgrade_routing {σa σb C aid bid oa ob : Type}
    (upgradeA : σa → C → aid → Except IoError oa)
    (upgradeB : σb → C → bid → Except IoError ob)
    (u : σa × σb) (socket : C) :
    (∀ idB : bid,
      OrUpgrade.upgrade upgradeA upgradeB u socket
          (EitherUpgradeIdentifier.Second idB) =
        EitherConnUpgrFuture.Second (upgradeB u.2 socket idB) ∧
      (∀ (upgradeA2 : σa → C → aid → Except IoError oa) (u1 : σa),
        OrUpgrade.upgrade upgradeA2 upgradeB (u1, u.2) socket
            (EitherUpgradeIdentifier.Second idB) =
          EitherConnUpgrFuture.Second (upgradeB u.2 socket idB)) ∧
      EitherConnUpgrFuture.poll
          (OrUpgrade.upgrade upgradeA upgradeB u socket
            (EitherUpgradeIdentifier.Second idB)) =
        (upgradeB u.2 socket idB).map EitherSocket.Second) ∧
    (∀ idA : aid,
      OrUpgrade.upgrade upgradeA upgradeB u socket
          (EitherUpgradeIdentifier.First idA) =
        EitherConnUpgrFuture.First (upgradeA u.1 socket idA) ∧
      (∀ (upgradeB2 : σb → C → bid → Except IoError ob) (u2 : σb),
        OrUpgrade.upgrade upgradeA upgradeB2 (u.1, u2) socket
            (EitherUpgradeIdentifier.First idA) =
          EitherConnUpgrFuture.First (upgradeA u.1 socket idA))) :=
  ⟨fun _ => ⟨rfl, fun _ _ => rfl, rfl⟩, fun _ => ⟨rfl, fun _ _ => rfl⟩⟩

/-- Claim C7: for every transport and every address on which its dial or
its listen fails handing back a transport state and an address,
`UpgradedNode.dial` / `UpgradedNode.listen_on` fails by returning that
address together with a rebuilt `UpgradedNode` whose transport is the
handed-back one and whose upgrade-set is exactly the original,
unchanged. -/
theorem upgradedNode_failure_preserves_upgrade {τ υ ρ Id Out : Type}
    (dialT : τ → Multiaddr → Except (τ × Multiaddr) (Except IoError ρ))
    (listenT : τ → Multiaddr → Except (τ × Multiaddr) (List (Except IoError ρ)))
    (pn : υ → List (Bytes × Id))
    (upgradeFn : υ → ρ → Id → Except IoError Out)
    (neg : ρ → List (Bytes × Id) → Except NegotiationError (Id × ρ))
    (t : τ) (u : υ) (addr : Multiaddr) (t2 t3 : τ) (addr2 addr3 : Multiaddr)
    (hdial : dialT t addr = Except.error (t2, addr2))
    (hlisten : listenT t addr = Except.error (t3, addr3)) :
    UpgradedNode.dial dialT pn upgradeFn neg ⟨t, u⟩ addr =
        Except.error (⟨t2, u⟩, addr2) ∧
      UpgradedNode.listen_on listenT pn upgradeFn neg ⟨t, u⟩ addr =
        Except.error (⟨t3, u⟩, addr3) := by
  constructor
  · simp [UpgradedNode.dial, hdial]
  · simp [UpgradedNode.listen_on, hlisten]

/-- Witness for `upgradedNode_failure_preserves_upgrade`:
`DeniedTransport` with the `PlainText` upgrade-set; both dial and listen
fail handing back the transport and the address unchanged, and the
rebuilt node keeps the upgrade-set. -/
theorem upgradedNode_failure_preserves_upgrade_witness :
    UpgradedNode.dial DeniedTransport.dial
        (fun (_ : Unit) => PlainText.protocol_names)
        (fun (_ : Unit) (c : CursorBytes) (_ : Unit) => PlainText.upgrade c ())
        (fun (c : CursorBytes) (_ : List (Bytes × Unit)) => Except.ok ((), c))
        ⟨DeniedTransport.mk, ()⟩ ⟨"/memory/1"⟩ =
        Except.error (⟨DeniedTransport.mk, ()⟩, ⟨"/memory/1"⟩) ∧
      UpgradedNode.listen_on DeniedTransport.listen_on
        (fun (_ : Unit) => PlainText.protocol_names)
        (fun (_ : Unit) (c : CursorBytes) (_ : Unit) => PlainText.upgrade c ())
        (fun (c : CursorBytes) (_ : List (Bytes × Unit)) => Except.ok ((), c))
        ⟨DeniedTransport.mk, ()⟩ ⟨"/memory/1"⟩ =
        Except.error (⟨DeniedTransport.mk, ()⟩, ⟨"/memory/1"⟩) :=
  upgradedNode_failure_preserves_upgrade DeniedTransport.dial
    DeniedTransport.listen_on
    (fun (_ : Unit) => PlainText.protocol_names)
    (fun (_ : Unit) (c : CursorBytes) (_ : Unit) => PlainText.upgrade c ())
    (fun (c : CursorBytes) (_ : List (Bytes × Unit)) => Except.ok ((), c))
    DeniedTransport.mk () ⟨"/memory/1"⟩ DeniedTransport.mk DeniedTransport.mk
    ⟨"/memory/1"⟩ ⟨"/memory/1"⟩ rfl rfl

/-- Claim C8: `PlainText` advertises exactly the one protocol named
`/plaintext/1.0.0`, and its upgrade is the identity transform — for
every connection c it resolves immediately and successfully to c itself,
unchanged. -/
theorem plainText_advertises_one_name_and_upgrades_identically :
    PlainText.protocol_names = [("/plaintext/1.0.0", ())] ∧
      ∀ (C : Type) (c : C), PlainText.upgrade c () = Except.ok c :=
  ⟨rfl, fun _ _ => rfl⟩

/-- Claim C9: `protocol_names` is pure and side-effect-free for the
upgrades of this module: the `PlainText` call leaves the upgrade value
unchanged and a repeated call yields the identical sequence, and the
`OrUpgrade` call does so as well whenever its two sides' calls leave
their values unchanged. -/
theorem protocol_names_pure_repeatable {σa σb aid bid : Type}
    (callA : σa → List (Bytes × aid) × σa)
    (callB : σb → List (Bytes × bid) × σb)
    (hA : ∀ s, (callA s).2 = s) (hB : ∀ s, (callB s).2 = s) (u : σa × σb) :
    (PlainText.protocolNamesCall ()).2 = () ∧
      (PlainText.protocolNamesCall ((PlainText.protocolNamesCall ()).2)).1 =
        (PlainText.protocolNamesCall ()).1 ∧
      (OrUpgrade.protocolNamesCall callA callB u).2 = u ∧
      (OrUpgrade.protocolNamesCall callA callB
          ((OrUpgrade.protocolNamesCall callA callB u).2)).1 =
        (OrUpgrade.protocolNamesCall callA callB u).1 := by
  have h2 : (OrUpgrade.protocolNamesCall callA callB u).2 = u := by
    simp [OrUpgrade.protocolNamesCall, hA, hB]
  exact ⟨rfl, rfl, h2, by rw [h2]⟩

/-- Witness for `protocol_names_pure_repeatable`: `OrUpgrade` of two
`PlainText` sides, each of whose calls is pure. -/
theorem protocol_names_pure_repeatable_witness :
    (PlainText.protocolNamesCall ()).2 = () ∧
      (PlainText.protocolNamesCall ((PlainText.protocolNamesCall ()).2)).1 =
        (PlainText.protocolNamesCall ()).1 ∧
      (OrUpgrade.protocolNamesCall PlainText.protocolNamesCall
          PlainText.protocolNamesCall ((), ())).2 = ((), ()) ∧
      (OrUpgrade.protocolNamesCall PlainText.protocolNamesCall
          PlainText.protocolNamesCall
          ((OrUpgrade.protocolNamesCall PlainText.protocolNamesCall
            PlainText.protocolNamesCall ((), ())).2)).1 =
        (OrUpgrade.protocolNamesCall PlainText.protocolNamesCall
          PlainText.protocolNamesCall ((), ())).1 :=
  protocol_names_pure_repeatable PlainText.protocolNamesCall
    PlainText.protocolNamesCall (fun _ => rfl) (fun _ => rfl) ((), ())

/-- Claim C10: for every address, `DeniedTransport.dial` and
`DeniedTransport.listen_on` always fail, returning the pair
`(DeniedTransport, addr)` with the address unchanged, and never produce
a dial future or a listener. -/
theorem deniedTransport_always_denies (t : DeniedTransport) (addr : Multiaddr) :
    DeniedTransport.dial t addr = Except.error (DeniedTransport.mk, addr) ∧
      DeniedTransport.listen_on t addr =
        Except.error (DeniedTransport.mk, addr) ∧
      (∀ f, DeniedTransport.dial t addr ≠ Except.ok f) ∧
      (∀ l, DeniedTransport.listen_on t addr ≠ Except.ok l) :=
  ⟨rfl, rfl, fun _ h => Except.noConfusion h, fun _ h => Except.noConfusion h⟩

/-- Claim C1 evidence at a concrete failing input: when negotiation
fails, the dial future built by `UpgradedNode.dial` terminates in a
process abort (`panic`), not a structured error, and the listener
stream built by `UpgradedNode.listen_on` aborts at the failing item and
produces no subsequent connection for the second incoming one — the
structured taxonomy the spec requires is the `// TODO:` placeholders'
intended replacement, not what the code does. -/
theorem upgradedNode_negotiation_failure_aborts :
    UpgradedNode.dial
        (fun (_ : Unit) (_ : Multiaddr) =>
          Except.ok (Except.ok 7 : Except IoError Nat))
        (fun (_ : Unit) => PlainText.protocol_names)
        (fun (_ : Unit) (c : Nat) (_ : Unit) => PlainText.upgrade c ())
        (fun (_ : Nat) (_ : List (Bytes × Unit)) =>
          Except.error (⟨"no protocol in common"⟩ : NegotiationError))
        ⟨(), ()⟩ ⟨"/memory/1"⟩ = Except.ok Outcome.panic ∧
      UpgradedNode.listen_on
        (fun (_ : Unit) (_ : Multiaddr) =>
          Except.ok [Except.ok 1, (Except.ok 2 : Except IoError Nat)])
        (fun (_ : Unit) => PlainText.protocol_names)
        (fun (_ : Unit) (c : Nat) (_ : Unit) => PlainText.upgrade c ())
        (fun (_ : Nat) (_ : List (Bytes × Unit)) =>
          Except.error (⟨"no protocol in common"⟩ : NegotiationError))
        ⟨(), ()⟩ ⟨"/memory/1"⟩ = Except.ok [Outcome.panic] :=
  ⟨rfl, rfl⟩
